import Mathlib

/-!
Verification of the discovery-and-retry engine of `src/crawl.py` (apk_crawler).

Shallow embedding: the download driver `_download` (lines 45-77), the
orchestrator `crawl` (lines 93-128) and the listing-accumulator loop of
`_discover_apps` (lines 152-163) are translated to pure Lean functions.
A package name (the string returned by `Entry.package_name()`) is an opaque
identifier with decidable equality. The remote store is modelled as a
deterministic oracle `Api`: `api n k` is the outcome of the `(k+1)`-st
`api.download` invocation for identifier `n` within the run (normal return,
or one of the typed exceptions `Wait`, `Retry`, `RequestError` of
`API.Exceptions`). The per-entry branch taken by the driver is recorded in a
ghost trace of `Event`s, mirroring the log lines the source emits in each
branch; `time.sleep` calls are recorded in a ghost list of slept durations.
-/

/-- Identifier string returned by `Entry.package_name()`. -/
abbrev PkgName := String

/-- One catalog entry (an app object). Distinct objects may share a package
name when the same app appears under several subcategories; `tag`
distinguishes the objects. -/
structure App where
  name : PkgName
  tag : Nat
  deriving DecidableEq

/-- Outcome of one `api.download(app)` call: normal return, or one of the
typed exceptions `Wait` (server busy), `Retry`, `RequestError` raised by the
catalog source. -/
inductive Outcome where
  | success
  | busy
  | retryReq
  | requestError (msg : String)
  deriving DecidableEq

/-- Deterministic remote oracle: `api n k` is the outcome of the `(k+1)`-st
download invocation for identifier `n` in this run. -/
abbrev Api := PkgName → Nat → Outcome

/-- Ghost observation: the classification an entry received in one iteration
of the `_download` loop (src/crawl.py lines 50-76), one constructor per
branch, carrying the slept duration for the busy branch. -/
inductive Event where
  | skipped (app : App)
  | succeeded (app : App)
  | wentBusy (app : App) (sleptFor : Nat)
  | retryQueued (app : App)
  | droppedEntry (app : App)
  | errorQueued (app : App)
  deriving DecidableEq

/-- The entry an event classifies. -/
def eventApp : Event → App
  | Event.skipped a => a
  | Event.succeeded a => a
  | Event.wentBusy a _ => a
  | Event.retryQueued a => a
  | Event.droppedEntry a => a
  | Event.errorQueued a => a

/-- Name added to `local_success` by a success event. -/
def successName? : Event → Option PkgName
  | Event.succeeded a => some a.name
  | _ => none

/-- Entry appended to `busy_list` by a busy event. -/
def busyApp? : Event → Option App
  | Event.wentBusy a _ => some a
  | _ => none

/-- Entry appended to `retry_list` (either by the `Retry` branch with
retries enabled, or by the `RequestError` branch). -/
def retryApp? : Event → Option App
  | Event.retryQueued a => some a
  | Event.errorQueued a => some a
  | _ => none

/-- Entry dropped terminally by the `Retry` branch with retries disabled
(source line 73: logged "failed a second time, skipping"). -/
def droppedApp? : Event → Option App
  | Event.droppedEntry a => some a
  | _ => none

/-- Name passed to `api.download` by a non-skipped event. -/
def invokedName? : Event → Option PkgName
  | Event.skipped _ => none
  | e => some (eventApp e).name

/-- State of one `_download` invocation: the local variables of
src/crawl.py lines 45-49 (`already_waited`, `wait`, `retry_list`,
`busy_list`, `local_success`), ghost observations (`dropped`, `slept`,
`trace`), the run-global download invocation log driving the oracle, and the
`downloaded` set object passed in by the caller. -/
structure DState where
  alreadyWaited : Bool
  wait : Nat
  retryList : List App
  busyList : List App
  localSuccess : List PkgName
  dropped : List App
  slept : List Nat
  trace : List Event
  log : List PkgName
  downloaded : List PkgName
  deriving DecidableEq

/-- One iteration of the `for app in apps` loop of `_download`
(src/crawl.py lines 50-76). -/
def dstep (api : Api) (retryEnabled : Bool) (s : DState) (app : App) : DState :=
  if app.name ∈ s.downloaded ∨ app.name ∈ s.localSuccess then
    { s with trace := s.trace ++ [Event.skipped app] }
  else
    let k := s.log.count app.name
    let s1 := { s with log := s.log ++ [app.name] }
    match api app.name k with
    | Outcome.success =>
        { s1 with localSuccess := s1.localSuccess ++ [app.name],
                  alreadyWaited := false, wait := 30,
                  trace := s1.trace ++ [Event.succeeded app] }
    | Outcome.busy =>
        let w := if s1.alreadyWaited then s1.wait * 2 else s1.wait
        { s1 with busyList := s1.busyList ++ [app],
                  wait := w, alreadyWaited := true,
                  slept := s1.slept ++ [w],
                  trace := s1.trace ++ [Event.wentBusy app w] }
    | Outcome.retryReq =>
        if retryEnabled then
          { s1 with alreadyWaited := false, wait := 30,
                    retryList := s1.retryList ++ [app],
                    trace := s1.trace ++ [Event.retryQueued app] }
        else
          { s1 with alreadyWaited := false, wait := 30,
                    dropped := s1.dropped ++ [app],
                    trace := s1.trace ++ [Event.droppedEntry app] }
    | Outcome.requestError _ =>
        { s1 with retryList := s1.retryList ++ [app],
                  trace := s1.trace ++ [Event.errorQueued app] }

/-- Initial driver state (src/crawl.py lines 45-49): `already_waited =
False`, `wait = 30`, empty lists; `downloaded` and the global invocation log
come from the caller. -/
def downloadInit (downloaded : List PkgName) (log : List PkgName) : DState :=
  { alreadyWaited := false, wait := 30, retryList := [], busyList := [],
    localSuccess := [], dropped := [], slept := [], trace := [],
    log := log, downloaded := downloaded }

/-- One full `_download(api, apps, downloaded, retry)` call
(src/crawl.py lines 17-77). -/
def downloadRun (api : Api) (apps : List App) (downloaded : List PkgName)
    (log : List PkgName) (retryEnabled : Bool) : DState :=
  apps.foldl (dstep api retryEnabled) (downloadInit downloaded log)

/-- State threaded through the per-listing loop of `crawl`
(src/crawl.py lines 95-106): the run-wide `retry` and `busy` backlogs, the
cumulative `downloaded` set, the global invocation log, and the per-pass
results kept as ghost observations. -/
structure ListingLoopState where
  retry : List App
  busy : List App
  downloaded : List PkgName
  log : List PkgName
  passes : List DState
  deriving DecidableEq

/-- Empty loop state (src/crawl.py lines 95-97). -/
def listingInit : ListingLoopState :=
  { retry := [], busy := [], downloaded := [], log := [], passes := [] }

/-- The `for app_list in app_lists` loop of `crawl`
(src/crawl.py lines 98-106): one driver pass per listing with
`retry=True`, extending `retry` and `busy` and merging successes. -/
def listingLoop (api : Api) : List (List App) → ListingLoopState → ListingLoopState
  | [], st => st
  | l :: ls, st =>
      let r := downloadRun api l st.downloaded st.log true
      listingLoop api ls
        { retry := st.retry ++ r.retryList,
          busy := st.busy ++ r.busyList,
          downloaded := st.downloaded ++ r.localSuccess,
          log := r.log,
          passes := st.passes ++ [r] }

/-- Result of one orchestration run (src/crawl.py lines 80-128), keeping
every pass and intermediate value as an observation. `downloaded` is the
final value of the `downloaded` variable; `downloadLog` is the full ordered
sequence of identifiers passed to `api.download` during the run;
`cooldownSleeps` records the `time.sleep(60)` calls of lines 117-120. -/
structure CrawlResult where
  listingPasses : List DState
  retryAfterListings : List App
  busyBacklog : List App
  downloadedAfterListings : List PkgName
  busyPass : DState
  downloadedAfterBusy : List PkgName
  cooldownPass : Option DState
  cooldownSleeps : List Nat
  finalRetry : List App
  finalSweep : DState
  downloaded : List PkgName
  downloadLog : List PkgName
  deriving DecidableEq

/-- The orchestrator `crawl` (src/crawl.py lines 80-128), with discovery
abstracted into the listings it yields: per-listing passes (lines 98-106),
the busy-backlog pass (line 108) whose successes are merged at line 112, the
cooldown escalation (lines 113-126) run only when the busy-backlog pass left
a non-empty busy list, `retry.extend(local_retry)` (line 127) and the final
no-retry sweep (line 128). -/
def crawl (api : Api) (appLists : List (List App)) : CrawlResult :=
  let st := listingLoop api appLists listingInit
  let rB := downloadRun api st.busy st.downloaded st.log true
  let d1 := st.downloaded ++ rB.localSuccess
  if rB.busyList = [] then
    let retryF := st.retry ++ rB.retryList
    let rS := downloadRun api retryF d1 rB.log false
    { listingPasses := st.passes, retryAfterListings := st.retry,
      busyBacklog := st.busy, downloadedAfterListings := st.downloaded,
      busyPass := rB, downloadedAfterBusy := d1,
      cooldownPass := none, cooldownSleeps := [],
      finalRetry := retryF, finalSweep := rS,
      downloaded := d1, downloadLog := rS.log }
  else
    let rC := downloadRun api rB.busyList d1 rB.log true
    let retryF := st.retry ++ rC.retryList
    let rS := downloadRun api retryF d1 rC.log false
    { listingPasses := st.passes, retryAfterListings := st.retry,
      busyBacklog := st.busy, downloadedAfterListings := st.downloaded,
      busyPass := rB, downloadedAfterBusy := d1,
      cooldownPass := some rC, cooldownSleeps := List.replicate 60 60,
      finalRetry := retryF, finalSweep := rS,
      downloaded := d1, downloadLog := rS.log }

/-- The `while ALL: app_list.more()` loop of `_discover_apps`
(src/crawl.py lines 156-161), with the catalog source's paging behaviour
given as the list of pages that successive `more()` calls would append
before one of them raises `Maximum`. Returns the grown listing and the
number of `more()` calls made (the last one being the call that raised
`Maximum` and broke the loop). -/
def growListing : List (List App) → List App → List App × Nat
  | [], acc => (acc, 1)
  | page :: rest, acc =>
      let r := growListing rest (acc ++ page)
      (r.1, r.2 + 1)

/-- Identifiers appearing in at least one discovered listing, deduplicated:
the `app_set` computed at src/crawl.py lines 164-167. -/
def discoveredNames (appLists : List (List App)) : List PkgName :=
  (appLists.flatten.map App.name).dedup

/-- All classification events of a run, in execution order. -/
def allTrace (c : CrawlResult) : List Event :=
  (c.listingPasses.map DState.trace).flatten ++ c.busyPass.trace ++
    (match c.cooldownPass with
     | some r => r.trace
     | none => []) ++ c.finalSweep.trace

/-- Identifiers that were successfully downloaded at some point of a run. -/
def succeededNames (c : CrawlResult) : List PkgName :=
  (allTrace c).filterMap successName?

/-- Entries the run drops terminally with a log line: entries still busy
after the cooldown pass (line 126: "skipping those apps now") and every
entry that fails in the final no-retry sweep, whose returned lists are
discarded (line 128). -/
def terminalDropApps (c : CrawlResult) : List App :=
  (match c.cooldownPass with
   | some r => r.busyList
   | none => []) ++
    c.finalSweep.busyList ++ c.finalSweep.dropped ++ c.finalSweep.retryList

/-- Successes of the cooldown pass, when it ran. -/
def cooldownSuccesses (c : CrawlResult) : List PkgName :=
  match c.cooldownPass with
  | some r => r.localSuccess
  | none => []

/-- An oracle that never returns an unclassified `RequestError`. -/
def noRequestError (api : Api) : Prop :=
  ∀ n k m, api n k ≠ Outcome.requestError m

theorem dstep_shape (api : Api) (re : Bool) (s : DState) (a : App) :
    ∃ e : Event, eventApp e = a ∧
      (dstep api re s a).trace = s.trace ++ [e] ∧
      (dstep api re s a).localSuccess = s.localSuccess ++ [e].filterMap successName? ∧
      (dstep api re s a).busyList = s.busyList ++ [e].filterMap busyApp? ∧
      (dstep api re s a).retryList = s.retryList ++ [e].filterMap retryApp? ∧
      (dstep api re s a).dropped = s.dropped ++ [e].filterMap droppedApp? ∧
      (dstep api re s a).log = s.log ++ [e].filterMap invokedName? ∧
      (dstep api re s a).downloaded = s.downloaded := by
  unfold dstep
  by_cases h : a.name ∈ s.downloaded ∨ a.name ∈ s.localSuccess
  · refine ⟨Event.skipped a, rfl, ?_⟩
    simp [h, eventApp, successName?, busyApp?, retryApp?, droppedApp?, invokedName?]
  · simp only [if_neg h]
    cases hout : api a.name (s.log.count a.name) with
    | success =>
        refine ⟨Event.succeeded a, rfl, ?_⟩
        simp [hout, eventApp, successName?, busyApp?, retryApp?, droppedApp?, invokedName?]
    | busy =>
        refine ⟨Event.wentBusy a (if s.alreadyWaited then s.wait * 2 else s.wait), rfl, ?_⟩
        simp [hout, eventApp, successName?, busyApp?, retryApp?, droppedApp?, invokedName?]
    | retryReq =>
        cases re with
        | true =>
            refine ⟨Event.retryQueued a, rfl, ?_⟩
            simp [hout, eventApp, successName?, busyApp?, retryApp?, droppedApp?, invokedName?]
        | false =>
            refine ⟨Event.droppedEntry a, rfl, ?_⟩
            simp [hout, eventApp, successName?, busyApp?, retryApp?, droppedApp?, invokedName?]
    | requestError m =>
        refine ⟨Event.errorQueued a, rfl, ?_⟩
        simp [hout, eventApp, successName?, busyApp?, retryApp?, droppedApp?, invokedName?]

theorem foldl_dstep_shape (api : Api) (re : Bool) :
    ∀ (apps : List App) (s : DState),
      ∃ t : List Event, t.map eventApp = apps ∧
        (apps.foldl (dstep api re) s).trace = s.trace ++ t ∧
        (apps.foldl (dstep api re) s).localSuccess
          = s.localSuccess ++ t.filterMap successName? ∧
        (apps.foldl (dstep api re) s).busyList
          = s.busyList ++ t.filterMap busyApp? ∧
        (apps.foldl (dstep api re) s).retryList
          = s.retryList ++ t.filterMap retryApp? ∧
        (apps.foldl (dstep api re) s).dropped
          = s.dropped ++ t.filterMap droppedApp? ∧
        (apps.foldl (dstep api re) s).log
          = s.log ++ t.filterMap invokedName? ∧
        (apps.foldl (dstep api re) s).downloaded = s.downloaded := by
  intro apps
  induction apps with
  | nil => exact fun s => ⟨[], by simp⟩
  | cons a l ih =>
      intro s
      obtain ⟨e, he, h1, h2, h3, h4, h5, h6, h7⟩ := dstep_shape api re s a
      obtain ⟨t, ht, g1, g2, g3, g4, g5, g6, g7⟩ := ih (dstep api re s a)
      refine ⟨e :: t, ?_, ?_, ?_, ?_, ?_, ?_, ?_, ?_⟩ <;>
        simp [ht, he, g1, g2, g3, g4, g5, g6, g7, h1, h2, h3, h4, h5, h6, h7,
          List.filterMap_cons]
      · cases hfe : successName? e <;> simp [hfe]
      · cases hfe : busyApp? e <;> simp [hfe]
      · cases hfe : retryApp? e <;> simp [hfe]
      · cases hfe : droppedApp? e <;> simp [hfe]
      · cases hfe : invokedName? e <;> simp [hfe]

theorem downloadRun_shape (api : Api) (apps : List App) (d l : List PkgName)
    (re : Bool) :
    ∃ t : List Event, t.map eventApp = apps ∧
      (downloadRun api apps d l re).trace = t ∧
      (downloadRun api apps d l re).localSuccess = t.filterMap successName? ∧
      (downloadRun api apps d l re).busyList = t.filterMap busyApp? ∧
      (downloadRun api apps d l re).retryList = t.filterMap retryApp? ∧
      (downloadRun api apps d l re).dropped = t.filterMap droppedApp? ∧
      (downloadRun api apps d l re).log = l ++ t.filterMap invokedName? ∧
      (downloadRun api apps d l re).downloaded = d := by
  obtain ⟨t, ht, h1, h2, h3, h4, h5, h6, h7⟩ :=
    foldl_dstep_shape api re apps (downloadInit d l)
  exact ⟨t, ht, by simpa [downloadRun, downloadInit] using h1,
    by simpa [downloadRun, downloadInit] using h2,
    by simpa [downloadRun, downloadInit] using h3,
    by simpa [downloadRun, downloadInit] using h4,
    by simpa [downloadRun, downloadInit] using h5,
    by simpa [downloadRun, downloadInit] using h6,
    by simpa [downloadRun, downloadInit] using h7⟩

theorem busyApp?_app {e : Event} {x : App} (h : busyApp? e = some x) :
    eventApp e = x := by
  cases e <;> simp [busyApp?, eventApp] at h ⊢ <;> exact h

theorem retryApp?_app {e : Event} {x : App} (h : retryApp? e = some x) :
    eventApp e = x := by
  cases e <;> simp [retryApp?, eventApp] at h ⊢ <;> exact h

theorem droppedApp?_app {e : Event} {x : App} (h : droppedApp? e = some x) :
    eventApp e = x := by
  cases e <;> simp [droppedApp?, eventApp] at h ⊢ <;> exact h

theorem successName?_name {e : Event} {n : PkgName} (h : successName? e = some n) :
    (eventApp e).name = n := by
  cases e <;> simp [successName?, eventApp] at h ⊢ <;> exact h

theorem mem_busyList_of_run {api : Api} {apps : List App} {d l : List PkgName}
    {re : Bool} {x : App} (h : x ∈ (downloadRun api apps d l re).busyList) :
    x ∈ apps := by
  obtain ⟨t, ht, -, -, h3, -⟩ := downloadRun_shape api apps d l re
  rw [h3] at h
  obtain ⟨e, het, hee⟩ := List.mem_filterMap.mp h
  rw [← ht]
  exact List.mem_map.mpr ⟨e, het, busyApp?_app hee⟩

theorem mem_trace_of_run {api : Api} {apps : List App} {d l : List PkgName}
    {re : Bool} {e : Event} (h : e ∈ (downloadRun api apps d l re).trace) :
    eventApp e ∈ apps := by
  obtain ⟨t, ht, h1, -⟩ := downloadRun_shape api apps d l re
  rw [h1] at h
  rw [← ht]
  exact List.mem_map.mpr ⟨e, h, rfl⟩

theorem mem_localSuccess_of_run {api : Api} {apps : List App}
    {d l : List PkgName} {re : Bool} {n : PkgName}
    (h : n ∈ (downloadRun api apps d l re).localSuccess) :
    ∃ a, a ∈ apps ∧ a.name = n := by
  obtain ⟨t, ht, -, h2, -⟩ := downloadRun_shape api apps d l re
  rw [h2] at h
  obtain ⟨e, het, hee⟩ := List.mem_filterMap.mp h
  exact ⟨eventApp e, by rw [← ht]; exact List.mem_map.mpr ⟨e, het, rfl⟩,
    successName?_name hee⟩

theorem trace_count_le (t : List Event) (x : App) :
    (t.filterMap busyApp?).count x + (t.filterMap retryApp?).count x
      + (t.filterMap droppedApp?).count x ≤ (t.map eventApp).count x := by
  induction t with
  | nil => simp
  | cons e t ih =>
      cases e <;>
        simp [busyApp?, retryApp?, droppedApp?, eventApp, List.filterMap_cons,
          List.count_cons] <;> split <;> omega

theorem run_count_le (api : Api) (apps : List App) (d l : List PkgName)
    (re : Bool) (x : App) :
    (downloadRun api apps d l re).busyList.count x
      + (downloadRun api apps d l re).retryList.count x
      + (downloadRun api apps d l re).dropped.count x ≤ apps.count x := by
  obtain ⟨t, ht, -, -, h3, h4, h5, -⟩ := downloadRun_shape api apps d l re
  rw [h3, h4, h5, ← ht]
  exact trace_count_le t x

theorem crawl_busyPass_eq (api : Api) (appLists : List (List App)) :
    (crawl api appLists).busyPass
      = downloadRun api (listingLoop api appLists listingInit).busy
          (listingLoop api appLists listingInit).downloaded
          (listingLoop api appLists listingInit).log true := by
  simp only [crawl]
  split <;> rfl

theorem crawl_busyBacklog_eq (api : Api) (appLists : List (List App)) :
    (crawl api appLists).busyBacklog
      = (listingLoop api appLists listingInit).busy := by
  simp only [crawl]
  split <;> rfl

theorem crawl_retryAfterListings_eq (api : Api) (appLists : List (List App)) :
    (crawl api appLists).retryAfterListings
      = (listingLoop api appLists listingInit).retry := by
  simp only [crawl]
  split <;> rfl

theorem crawl_downloadedAfterListings_eq (api : Api) (appLists : List (List App)) :
    (crawl api appLists).downloadedAfterListings
      = (listingLoop api appLists listingInit).downloaded := by
  simp only [crawl]
  split <;> rfl

theorem crawl_listingPasses_eq (api : Api) (appLists : List (List App)) :
    (crawl api appLists).listingPasses
      = (listingLoop api appLists listingInit).passes := by
  simp only [crawl]
  split <;> rfl

theorem crawl_downloadedAfterBusy_eq (api : Api) (appLists : List (List App)) :
    (crawl api appLists).downloadedAfterBusy
      = (crawl api appLists).downloadedAfterListings
          ++ (crawl api appLists).busyPass.localSuccess := by
  simp only [crawl]
  split <;> rfl

theorem crawl_downloaded_eq (api : Api) (appLists : List (List App)) :
    (crawl api appLists).downloaded = (crawl api appLists).downloadedAfterBusy := by
  simp only [crawl]
  split <;> rfl

theorem crawl_cooldownPass_none_iff (api : Api) (appLists : List (List App)) :
    (crawl api appLists).cooldownPass = none
      ↔ (crawl api appLists).busyPass.busyList = [] := by
  simp only [crawl]
  split
  next h => exact ⟨fun _ => h, fun _ => rfl⟩
  next h => exact ⟨fun hc => Option.noConfusion hc, fun hb => absurd hb h⟩

theorem crawl_cooldownPass_eq (api : Api) (appLists : List (List App))
    (h : (crawl api appLists).busyPass.busyList ≠ []) :
    (crawl api appLists).cooldownPass
      = some (downloadRun api (crawl api appLists).busyPass.busyList
          (crawl api appLists).downloadedAfterBusy
          (crawl api appLists).busyPass.log true) := by
  revert h
  simp only [crawl]
  split
  next hb => exact fun h => absurd hb h
  next hb => exact fun _ => rfl

theorem crawl_cooldownSleeps_eq (api : Api) (appLists : List (List App)) :
    (crawl api appLists).cooldownSleeps
      = (match (crawl api appLists).cooldownPass with
         | none => []
         | some _ => List.replicate 60 60) := by
  simp only [crawl]
  split
  next => rfl
  next => rfl

theorem crawl_finalRetry_eq (api : Api) (appLists : List (List App)) :
    (crawl api appLists).finalRetry
      = (crawl api appLists).retryAfterListings
          ++ (match (crawl api appLists).cooldownPass with
              | none => (crawl api appLists).busyPass.retryList
              | some r => r.retryList) := by
  simp only [crawl]
  split <;> rfl

theorem crawl_finalSweep_eq (api : Api) (appLists : List (List App)) :
    (crawl api appLists).finalSweep
      = downloadRun api (crawl api appLists).finalRetry
          (crawl api appLists).downloadedAfterBusy
          (match (crawl api appLists).cooldownPass with
           | none => (crawl api appLists).busyPass.log
           | some r => r.log) false := by
  simp only [crawl]
  split <;> rfl

theorem crawl_downloadLog_eq (api : Api) (appLists : List (List App)) :
    (crawl api appLists).downloadLog = (crawl api appLists).finalSweep.log := by
  simp only [crawl]
  split <;> rfl

theorem listingLoop_count_le (api : Api) :
    ∀ (lists : List (List App)) (st : ListingLoopState) (x : App),
      (listingLoop api lists st).busy.count x
          + (listingLoop api lists st).retry.count x
        ≤ st.busy.count x + st.retry.count x + lists.flatten.count x := by
  intro lists
  induction lists with
  | nil => intro st x; simp [listingLoop]
  | cons l ls ih =>
      intro st x
      have hpass := run_count_le api l st.downloaded st.log true x
      have hih := ih
        { retry := st.retry ++ (downloadRun api l st.downloaded st.log true).retryList,
          busy := st.busy ++ (downloadRun api l st.downloaded st.log true).busyList,
          downloaded := st.downloaded
            ++ (downloadRun api l st.downloaded st.log true).localSuccess,
          log := (downloadRun api l st.downloaded st.log true).log,
          passes := st.passes ++ [downloadRun api l st.downloaded st.log true] } x
      simp only [listingLoop] at hih ⊢
      simp only [List.count_append, List.flatten_cons] at hih ⊢
      omega

theorem dstep_eq_skip (api : Api) (re : Bool) (s : DState) (a : App)
    (h : a.name ∈ s.downloaded ∨ a.name ∈ s.localSuccess) :
    dstep api re s a = { s with trace := s.trace ++ [Event.skipped a] } := by
  unfold dstep
  rw [if_pos h]

theorem dstep_eq_success (api : Api) (re : Bool) (s : DState) (a : App)
    (hskip : ¬(a.name ∈ s.downloaded ∨ a.name ∈ s.localSuccess))
    (hout : api a.name (s.log.count a.name) = Outcome.success) :
    dstep api re s a
      = { s with localSuccess := s.localSuccess ++ [a.name],
                 alreadyWaited := false, wait := 30,
                 trace := s.trace ++ [Event.succeeded a],
                 log := s.log ++ [a.name] } := by
  unfold dstep
  rw [if_neg hskip]
  simp only [hout]

theorem dstep_eq_busy (api : Api) (re : Bool) (s : DState) (a : App)
    (hskip : ¬(a.name ∈ s.downloaded ∨ a.name ∈ s.localSuccess))
    (hout : api a.name (s.log.count a.name) = Outcome.busy) :
    dstep api re s a
      = { s with busyList := s.busyList ++ [a],
                 wait := if s.alreadyWaited then s.wait * 2 else s.wait,
                 alreadyWaited := true,
                 slept := s.slept
                   ++ [if s.alreadyWaited then s.wait * 2 else s.wait],
                 trace := s.trace
                   ++ [Event.wentBusy a
                        (if s.alreadyWaited then s.wait * 2 else s.wait)],
                 log := s.log ++ [a.name] } := by
  unfold dstep
  rw [if_neg hskip]
  simp only [hout]

theorem dstep_eq_retryReq_true (api : Api) (s : DState) (a : App)
    (hskip : ¬(a.name ∈ s.downloaded ∨ a.name ∈ s.localSuccess))
    (hout : api a.name (s.log.count a.name) = Outcome.retryReq) :
    dstep api true s a
      = { s with alreadyWaited := false, wait := 30,
                 retryList := s.retryList ++ [a],
                 trace := s.trace ++ [Event.retryQueued a],
                 log := s.log ++ [a.name] } := by
  unfold dstep
  rw [if_neg hskip]
  simp [hout]

theorem dstep_eq_retryReq_false (api : Api) (s : DState) (a : App)
    (hskip : ¬(a.name ∈ s.downloaded ∨ a.name ∈ s.localSuccess))
    (hout : api a.name (s.log.count a.name) = Outcome.retryReq) :
    dstep api false s a
      = { s with alreadyWaited := false, wait := 30,
                 dropped := s.dropped ++ [a],
                 trace := s.trace ++ [Event.droppedEntry a],
                 log := s.log ++ [a.name] } := by
  unfold dstep
  rw [if_neg hskip]
  simp [hout]

theorem dstep_eq_requestError (api : Api) (re : Bool) (s : DState) (a : App)
    (m : String)
    (hskip : ¬(a.name ∈ s.downloaded ∨ a.name ∈ s.localSuccess))
    (hout : api a.name (s.log.count a.name) = Outcome.requestError m) :
    dstep api re s a
      = { s with retryList := s.retryList ++ [a],
                 trace := s.trace ++ [Event.errorQueued a],
                 log := s.log ++ [a.name] } := by
  unfold dstep
  rw [if_neg hskip]
  simp only [hout]

theorem foldl_dstep_inv (api : Api) (re : Bool) (P : DState → Prop)
    (hstep : ∀ s a, P s → P (dstep api re s a)) :
    ∀ (apps : List App) (s : DState), P s → P (apps.foldl (dstep api re) s) := by
  intro apps
  induction apps with
  | nil => exact fun s h => h
  | cons a l ih => exact fun s h => ih (dstep api re s a) (hstep s a h)

/-- C6: for every input sequence of entries, one `_download` call classifies
each entry into exactly one of skipped-as-duplicate / succeeded / busy-listed
/ retry-listed / dropped-terminally: the trace has exactly one event per
input entry, in input order (so the loop never aborts early), and the
returned lists are exactly the projections of that trace; in particular the
newly-downloaded set `local_success` contains exactly the identifiers whose
download succeeded in this call. -/
theorem claim_C6_driver_classification (api : Api) (apps : List App)
    (d l : List PkgName) (re : Bool) :
    (downloadRun api apps d l re).trace.map eventApp = apps ∧
    (downloadRun api apps d l re).localSuccess
      = (downloadRun api apps d l re).trace.filterMap successName? ∧
    (downloadRun api apps d l re).busyList
      = (downloadRun api apps d l re).trace.filterMap busyApp? ∧
    (downloadRun api apps d l re).retryList
      = (downloadRun api apps d l re).trace.filterMap retryApp? ∧
    (downloadRun api apps d l re).dropped
      = (downloadRun api apps d l re).trace.filterMap droppedApp? := by
  obtain ⟨t, ht, h1, h2, h3, h4, h5, -⟩ := downloadRun_shape api apps d l re
  refine ⟨?_, ?_, ?_, ?_, ?_⟩
  · rw [h1, ht]
  · rw [h2, h1]
  · rw [h3, h1]
  · rw [h4, h1]
  · rw [h5, h1]

/-- C8: the `while ALL: more()` loop of `_discover_apps` terminates for a
catalog source that raises `Maximum` after yielding `pages.length` pages
(`growListing` is a total function, so termination is inherent); the
resulting listing holds exactly the initial entries followed by the entries
of those pages in order, and exactly `pages.length + 1` calls to `more()`
are made, the last being the one that raises `Maximum` — so no `more()` call
happens after exhaustion is signalled. -/
theorem claim_C8_listing_growth (pages : List (List App)) (acc : List App) :
    growListing pages acc = (acc ++ pages.flatten, pages.length + 1) := by
  induction pages generalizing acc with
  | nil => simp [growListing]
  | cons p ps ih => simp [growListing, ih]

/-- C10: one `_download` call never mutates the `downloaded` set passed to
it — the set object is returned exactly as it came in, for every input — and
successes are communicated only through the separately returned
`local_success` set, which the orchestrator alone merges into the run-wide
set (here: the merge after the busy-backlog pass, line 112 of the source). -/
theorem claim_C10_downloaded_frame :
    (∀ (api : Api) (apps : List App) (d l : List PkgName) (re : Bool),
        (downloadRun api apps d l re).downloaded = d) ∧
    (∀ (api : Api) (appLists : List (List App)),
        (crawl api appLists).downloadedAfterBusy
          = (crawl api appLists).downloadedAfterListings
              ++ (crawl api appLists).busyPass.localSuccess) := by
  constructor
  · intro api apps d l re
    obtain ⟨t, -, -, -, -, -, -, -, h⟩ := downloadRun_shape api apps d l re
    exact h
  · exact crawl_downloadedAfterBusy_eq

/-- Concrete package names and entries used in witnesses and
counterexamples. -/
def pN : PkgName := "p"

def qN : PkgName := "q"

def eN : PkgName := "e"

def mX : String := "unclassified failure"

def pApp : App := { name := pN, tag := 0 }

def qApp : App := { name := qN, tag := 0 }

def eApp1 : App := { name := eN, tag := 0 }

def eApp2 : App := { name := eN, tag := 1 }

/-- Oracle that always reports the server busy. -/
def apiBusy : Api := fun _ _ => Outcome.busy

/-- Oracle that always asks the client to retry. -/
def apiRetryReq : Api := fun _ _ => Outcome.retryReq

/-- C4: in one `_download` call with retries disabled, a `Retry` outcome
never appends the entry to `retry_list` (it is logged as terminal and
dropped, source lines 72-73), while a `RequestError` outcome always appends
it (source line 76), whatever the retry flag; consequently an oracle with no
`RequestError` outcomes yields an empty `retry_list` from a
`retry=False` call. -/
theorem claim_C4_retry_asymmetry (api : Api) (apps : List App)
    (d l : List PkgName) (s : DState) (a : App) (m : String) (re : Bool)
    (hskip : ¬(a.name ∈ s.downloaded ∨ a.name ∈ s.localSuccess)) :
    (api a.name (s.log.count a.name) = Outcome.retryReq →
      (dstep api false s a).retryList = s.retryList ∧
      (dstep api false s a).dropped = s.dropped ++ [a]) ∧
    (api a.name (s.log.count a.name) = Outcome.requestError m →
      (dstep api re s a).retryList = s.retryList ++ [a]) ∧
    (noRequestError api →
      (downloadRun api apps d l false).retryList = []) := by
  refine ⟨?_, ?_, ?_⟩
  · intro hout
    rw [dstep_eq_retryReq_false api s a hskip hout]
    exact ⟨rfl, rfl⟩
  · intro hout
    rw [dstep_eq_requestError api re s a m hskip hout]
  · intro hnre
    refine foldl_dstep_inv api false (fun st => st.retryList = []) ?_ apps
      (downloadInit d l) rfl
    intro st b hb
    by_cases hc : b.name ∈ st.downloaded ∨ b.name ∈ st.localSuccess
    · rw [dstep_eq_skip api false st b hc]
      exact hb
    · cases hout : api b.name (st.log.count b.name) with
      | success => rw [dstep_eq_success api false st b hc hout]; exact hb
      | busy => rw [dstep_eq_busy api false st b hc hout]; exact hb
      | retryReq => rw [dstep_eq_retryReq_false api st b hc hout]; exact hb
      | requestError m2 => exact absurd hout (hnre _ _ m2)

/-- Witness for C4 at a concrete input: the entry is not a duplicate, the
oracle answers `Retry`, retries are disabled, and the oracle never returns a
`RequestError`. -/
theorem claim_C4_witness :
    (¬(pApp.name ∈ (downloadInit [] []).downloaded
        ∨ pApp.name ∈ (downloadInit [] []).localSuccess)) ∧
    ((apiRetryReq pApp.name ((downloadInit [] []).log.count pApp.name)
        = Outcome.retryReq →
      (dstep apiRetryReq false (downloadInit [] []) pApp).retryList
          = (downloadInit [] []).retryList ∧
      (dstep apiRetryReq false (downloadInit [] []) pApp).dropped
          = (downloadInit [] []).dropped ++ [pApp]) ∧
    (apiRetryReq pApp.name ((downloadInit [] []).log.count pApp.name)
        = Outcome.requestError mX →
      (dstep apiRetryReq false (downloadInit [] []) pApp).retryList
          = (downloadInit [] []).retryList ++ [pApp]) ∧
    (noRequestError apiRetryReq →
      (downloadRun apiRetryReq [pApp] [] [] false).retryList = [])) :=
  ⟨by decide,
   claim_C4_retry_asymmetry apiRetryReq [pApp] [] [] (downloadInit [] [])
     pApp mX false (by decide)⟩

/-- C5: the busy backoff of `_download` starts at the base value 30
(lines 45-46); a busy outcome makes the driver sleep `wait * 2` when it had
already waited and `wait` otherwise, stores that value in `wait` and sets
the already-waited flag, so a second consecutive busy outcome sleeps exactly
double the first (and each further consecutive busy doubles again); a
success or `Retry` outcome resets `wait` to 30 and clears the flag
(lines 57-58 and 67-68). -/
theorem claim_C5_busy_backoff (api : Api) (re : Bool) (d l : List PkgName)
    (s s2 : DState) (a b c : App)
    (ha : ¬(a.name ∈ s.downloaded ∨ a.name ∈ s.localSuccess))
    (hoa : api a.name (s.log.count a.name) = Outcome.busy)
    (hb : ¬(b.name ∈ (dstep api re s a).downloaded
        ∨ b.name ∈ (dstep api re s a).localSuccess))
    (hob : api b.name ((dstep api re s a).log.count b.name) = Outcome.busy)
    (hc : ¬(c.name ∈ s2.downloaded ∨ c.name ∈ s2.localSuccess)) :
    ((downloadInit d l).wait = 30
      ∧ (downloadInit d l).alreadyWaited = false) ∧
    ((dstep api re s a).slept
        = s.slept ++ [if s.alreadyWaited then s.wait * 2 else s.wait] ∧
      (dstep api re s a).wait
        = (if s.alreadyWaited then s.wait * 2 else s.wait) ∧
      (dstep api re s a).alreadyWaited = true) ∧
    ((dstep api re (dstep api re s a) b).slept
        = s.slept ++ [if s.alreadyWaited then s.wait * 2 else s.wait,
            (if s.alreadyWaited then s.wait * 2 else s.wait) * 2]) ∧
    (api c.name (s2.log.count c.name) = Outcome.success →
      (dstep api re s2 c).wait = 30
        ∧ (dstep api re s2 c).alreadyWaited = false) ∧
    (api c.name (s2.log.count c.name) = Outcome.retryReq →
      (dstep api re s2 c).wait = 30
        ∧ (dstep api re s2 c).alreadyWaited = false) := by
  have h1 := dstep_eq_busy api re s a ha hoa
  refine ⟨⟨rfl, rfl⟩, ?_, ?_, ?_, ?_⟩
  · rw [h1]
    exact ⟨rfl, rfl, rfl⟩
  · have h2 := dstep_eq_busy api re (dstep api re s a) b hb hob
    rw [h2, h1]
    simp
  · intro hout
    rw [dstep_eq_success api re s2 c hc hout]
    exact ⟨rfl, rfl⟩
  · intro hout
    cases re with
    | true => rw [dstep_eq_retryReq_true api s2 c hc hout]; exact ⟨rfl, rfl⟩
    | false => rw [dstep_eq_retryReq_false api s2 c hc hout]; exact ⟨rfl, rfl⟩

/-- Driver state at the top of a `_download` call with nothing downloaded
yet and an empty invocation log. -/
def dInit0 : DState := downloadInit [] []

/-- Oracle for the C5 witness: identifier `e` downloads fine, everything
else is rate limited. -/
def apiC5 : Api := fun n _ => if n = eN then Outcome.success else Outcome.busy

/-- Witness for C5: two consecutive busy entries from the initial state
sleep 30 then 60, and a successful entry resets the backoff. -/
theorem claim_C5_witness :
    (¬(pApp.name ∈ dInit0.downloaded ∨ pApp.name ∈ dInit0.localSuccess)) ∧
    (((downloadInit [] []).wait = 30
        ∧ (downloadInit [] []).alreadyWaited = false) ∧
     ((dstep apiC5 true dInit0 pApp).slept
         = dInit0.slept
             ++ [if dInit0.alreadyWaited then dInit0.wait * 2 else dInit0.wait] ∧
       (dstep apiC5 true dInit0 pApp).wait
         = (if dInit0.alreadyWaited then dInit0.wait * 2 else dInit0.wait) ∧
       (dstep apiC5 true dInit0 pApp).alreadyWaited = true) ∧
     ((dstep apiC5 true (dstep apiC5 true dInit0 pApp) qApp).slept
         = dInit0.slept
             ++ [if dInit0.alreadyWaited then dInit0.wait * 2 else dInit0.wait,
                 (if dInit0.alreadyWaited then dInit0.wait * 2 else dInit0.wait)
                   * 2]) ∧
     (apiC5 eApp1.name (dInit0.log.count eApp1.name) = Outcome.success →
       (dstep apiC5 true dInit0 eApp1).wait = 30
         ∧ (dstep apiC5 true dInit0 eApp1).alreadyWaited = false) ∧
     (apiC5 eApp1.name (dInit0.log.count eApp1.name) = Outcome.retryReq →
       (dstep apiC5 true dInit0 eApp1).wait = 30
         ∧ (dstep apiC5 true dInit0 eApp1).alreadyWaited = false)) :=
  ⟨by decide,
   claim_C5_busy_backoff apiC5 true [] [] dInit0 dInit0 pApp qApp eApp1
     (by decide) (by decide) (by decide) (by decide) (by decide)⟩

/-- C9: a `RequestError` outcome leaves the busy-backoff state — `wait` and
`already_waited` — unchanged (its branch, lines 74-76, touches only the
retry list), unlike success and `Retry` which reset it; hence busy,
`RequestError`, busy still doubles the second sleep although a non-busy
outcome intervened. -/
theorem claim_C9_requestError_frame (api : Api) (re : Bool)
    (s s0 : DState) (a x y z : App) (m m2 : String)
    (ha : ¬(a.name ∈ s.downloaded ∨ a.name ∈ s.localSuccess))
    (hoa : api a.name (s.log.count a.name) = Outcome.requestError m)
    (hw : s0.alreadyWaited = false)
    (hx : ¬(x.name ∈ s0.downloaded ∨ x.name ∈ s0.localSuccess))
    (hox : api x.name (s0.log.count x.name) = Outcome.busy)
    (hy : ¬(y.name ∈ (dstep api re s0 x).downloaded
        ∨ y.name ∈ (dstep api re s0 x).localSuccess))
    (hoy : api y.name ((dstep api re s0 x).log.count y.name)
        = Outcome.requestError m2)
    (hz : ¬(z.name ∈ (dstep api re (dstep api re s0 x) y).downloaded
        ∨ z.name ∈ (dstep api re (dstep api re s0 x) y).localSuccess))
    (hoz : api z.name ((dstep api re (dstep api re s0 x) y).log.count z.name)
        = Outcome.busy) :
    ((dstep api re s a).wait = s.wait ∧
     (dstep api re s a).alreadyWaited = s.alreadyWaited ∧
     (dstep api re s a).slept = s.slept) ∧
    (dstep api re (dstep api re (dstep api re s0 x) y) z).slept
      = s0.slept ++ [s0.wait, s0.wait * 2] := by
  constructor
  · rw [dstep_eq_requestError api re s a m ha hoa]
    exact ⟨rfl, rfl, rfl⟩
  · rw [dstep_eq_busy api re (dstep api re (dstep api re s0 x) y) z hz hoz,
      dstep_eq_requestError api re (dstep api re s0 x) y m2 hy hoy,
      dstep_eq_busy api re s0 x hx hox]
    simp [hw]

/-- Oracle for the C9 witness: identifier `e` always fails with an
unclassified error, everything else is rate limited. -/
def apiC9 : Api := fun n _ =>
  if n = eN then Outcome.requestError mX else Outcome.busy

/-- Witness for C9: a `RequestError` on `e` leaves the backoff state alone,
and busy (`p`), `RequestError` (`e`), busy (`q`) sleeps 30 then 60. -/
theorem claim_C9_witness :
    (¬(eApp1.name ∈ dInit0.downloaded ∨ eApp1.name ∈ dInit0.localSuccess)) ∧
    (((dstep apiC9 true dInit0 eApp1).wait = dInit0.wait ∧
      (dstep apiC9 true dInit0 eApp1).alreadyWaited = dInit0.alreadyWaited ∧
      (dstep apiC9 true dInit0 eApp1).slept = dInit0.slept) ∧
     (dstep apiC9 true (dstep apiC9 true (dstep apiC9 true dInit0 pApp) eApp2)
         qApp).slept
       = dInit0.slept ++ [dInit0.wait, dInit0.wait * 2]) :=
  ⟨by decide,
   claim_C9_requestError_frame apiC9 true dInit0 dInit0 eApp1 pApp eApp2 qApp
     mX mX (by decide) (by decide) (by decide) (by decide) (by decide)
     (by decide) (by decide) (by decide) (by decide)⟩

/-- Oracle for C1: `q` is busy once then asks for a retry; every other
identifier (here `p`) is permanently busy. -/
def apiC1 : Api := fun n k =>
  if n = qN then (if k = 0 then Outcome.busy else Outcome.retryReq)
  else Outcome.busy

/-- C1 (code bug): in the run over the single listing `[q, p]` with oracle
`apiC1`, `q` is discovered, is never downloaded, and is in no terminal-drop
observation either: `q` lands on the busy-backlog pass's retry list, the
cooldown pass triggered by `p` overwrites `local_retry` (line 122), and
line 127 extends `retry` with the cooldown pass's empty retry list, so `q`
never reaches the final sweep and vanishes silently — contradicting the
claim that every discovered identifier ends up succeeded or
terminally dropped. -/
theorem claim_C1_entry_vanishes :
    qN ∈ discoveredNames [[qApp, pApp]] ∧
    qN ∉ succeededNames (crawl apiC1 [[qApp, pApp]]) ∧
    (∀ a ∈ terminalDropApps (crawl apiC1 [[qApp, pApp]]), a.name ≠ qN) := by
  decide

/-- Oracle for C2: every identifier is busy on its first two invocations and
succeeds on the third (which happens during the cooldown pass). -/
def apiC2 : Api := fun _ k =>
  if k ≤ 1 then Outcome.busy else Outcome.success

/-- C2 (code bug): in the run over `[p]` with oracle `apiC2`, the cooldown
pass downloads `p` successfully, yet `p` is not in the final `downloaded`
set: the code never merges the cooldown pass's `local_success` into
`downloaded` (no update after line 122), contradicting the claim that the
second attempt's successes are merged into the run-wide downloaded set. -/
theorem claim_C2_cooldown_success_unmerged :
    pN ∈ cooldownSuccesses (crawl apiC2 [[pApp]]) ∧
    pN ∉ (crawl apiC2 [[pApp]]).downloaded := by
  decide

/-- Oracle for C3's counterexample: every identifier fails with an
unclassified error on its first invocation and succeeds afterwards. -/
def apiC3 : Api := fun _ k =>
  if k = 0 then Outcome.requestError mX else Outcome.success

/-- C3 counterexample: identifier `e` appears in two listings; its first
attempt fails with `RequestError`, so the failed attempt registers `e` in no
dedup set and the second listing's copy is downloaded again — `download` is
invoked twice for `e` in one run, refuting "at most once ... for every
outcome sequence". -/
theorem claim_C3_counterexample :
    eN ∈ [eApp1].map App.name ∧ eN ∈ [eApp2].map App.name ∧
    (crawl apiC3 [[eApp1], [eApp2]]).downloadLog.count eN = 2 := by
  decide

/-- Invariant for the dedup argument, for a fixed identifier `n` whose
downloads always succeed: `n` was passed to `download` at most once, any
invocation for `n` is covered by one of the dedup sets, and no busy-listed
entry carries `n`. -/
def C3Inv (n : PkgName) (s : DState) : Prop :=
  s.log.count n ≤ 1 ∧
  (n ∈ s.log → n ∈ s.downloaded ∨ n ∈ s.localSuccess) ∧
  (∀ a, a ∈ s.busyList → a.name ≠ n)

theorem dstep_C3Inv (api : Api) (re : Bool) (n : PkgName)
    (hA : ∀ k, api n k = Outcome.success) (s : DState) (a : App)
    (h : C3Inv n s) : C3Inv n (dstep api re s a) := by
  obtain ⟨h1, h2, h3⟩ := h
  by_cases hc : a.name ∈ s.downloaded ∨ a.name ∈ s.localSuccess
  · rw [dstep_eq_skip api re s a hc]
    exact ⟨h1, h2, h3⟩
  · by_cases hn : a.name = n
    · have hout : api a.name (s.log.count a.name) = Outcome.success := by
        rw [hn]; exact hA _
      rw [dstep_eq_success api re s a hc hout]
      have hnotin : n ∉ s.log := fun hmem => hc (by rw [hn]; exact h2 hmem)
      refine ⟨?_, ?_, ?_⟩
      · simp [List.count_append, hn, List.count_eq_zero.mpr hnotin]
      · intro _
        right
        simp [hn]
      · exact h3
    · have hlog : (s.log ++ [a.name]).count n = s.log.count n := by
        simp [List.count_append, List.count_singleton, hn]
      have hmemlog : n ∈ s.log ++ [a.name] → n ∈ s.log := by
        intro hm
        rcases List.mem_append.mp hm with hm | hm
        · exact hm
        · exact absurd (List.mem_singleton.mp hm).symm hn
      cases hout : api a.name (s.log.count a.name) with
      | success =>
          rw [dstep_eq_success api re s a hc hout]
          refine ⟨by simpa [hlog] using h1, ?_, h3⟩
          intro hm
          rcases h2 (hmemlog hm) with hd | hs
          · exact Or.inl hd
          · exact Or.inr (List.mem_append.mpr (Or.inl hs))
      | busy =>
          rw [dstep_eq_busy api re s a hc hout]
          refine ⟨by simpa [hlog] using h1, fun hm => h2 (hmemlog hm), ?_⟩
          intro b hb
          rcases List.mem_append.mp hb with hb | hb
          · exact h3 b hb
          · rw [List.mem_singleton.mp hb]; exact hn
      | retryReq =>
          cases re with
          | true =>
              rw [dstep_eq_retryReq_true api s a hc hout]
              exact ⟨by simpa [hlog] using h1, fun hm => h2 (hmemlog hm), h3⟩
          | false =>
              rw [dstep_eq_retryReq_false api s a hc hout]
              exact ⟨by simpa [hlog] using h1, fun hm => h2 (hmemlog hm), h3⟩
      | requestError m =>
          rw [dstep_eq_requestError api re s a m hc hout]
          exact ⟨by simpa [hlog] using h1, fun hm => h2 (hmemlog hm), h3⟩

theorem C3Inv_init (n : PkgName) (d l : List PkgName)
    (h1 : l.count n ≤ 1) (h2 : n ∈ l → n ∈ d) :
    C3Inv n (downloadInit d l) :=
  ⟨h1, fun h => Or.inl (h2 h), fun a ha => absurd ha (List.not_mem_nil a)⟩

theorem downloadRun_C3Inv (api : Api) (re : Bool) (n : PkgName)
    (hA : ∀ k, api n k = Outcome.success) (apps : List App)
    (d l : List PkgName) (h1 : l.count n ≤ 1) (h2 : n ∈ l → n ∈ d) :
    C3Inv n (downloadRun api apps d l re) :=
  foldl_dstep_inv api re (C3Inv n) (dstep_C3Inv api re n hA) apps
    (downloadInit d l) (C3Inv_init n d l h1 h2)

/-- Loop-level form of the dedup invariant: between listing passes the
local successes are already merged into `downloaded`. -/
def C3LoopInv (n : PkgName) (st : ListingLoopState) : Prop :=
  st.log.count n ≤ 1 ∧ (n ∈ st.log → n ∈ st.downloaded) ∧
    (∀ a, a ∈ st.busy → a.name ≠ n)

theorem downloadRun_downloaded_eq (api : Api) (apps : List App)
    (d l : List PkgName) (re : Bool) :
    (downloadRun api apps d l re).downloaded = d := by
  obtain ⟨t, -, -, -, -, -, -, -, h⟩ := downloadRun_shape api apps d l re
  exact h

theorem listingLoop_C3Inv (api : Api) (n : PkgName)
    (hA : ∀ k, api n k = Outcome.success) :
    ∀ (lists : List (List App)) (st : ListingLoopState),
      C3LoopInv n st → C3LoopInv n (listingLoop api lists st) := by
  intro lists
  induction lists with
  | nil => exact fun st h => h
  | cons l ls ih =>
      intro st h
      obtain ⟨h1, h2, h3⟩ := h
      have hr := downloadRun_C3Inv api true n hA l st.downloaded st.log h1 h2
      obtain ⟨g1, g2, g3⟩ := hr
      have hdl := downloadRun_downloaded_eq api l st.downloaded st.log true
      simp only [listingLoop]
      apply ih
      refine ⟨g1, ?_, ?_⟩
      · intro hmem
        rcases g2 hmem with hd | hs
        · exact List.mem_append.mpr (Or.inl (hdl ▸ hd))
        · exact List.mem_append.mpr (Or.inr hs)
      · intro a ha
        rcases List.mem_append.mp ha with hb | hb
        · exact h3 a hb
        · exact g3 a hb

/-- C3 (amended): an identifier whose download invocations all succeed is
passed to `api.download` at most once per orchestration run, however many
listings reference it — the dedup of lines 52-53 plus the merges at
lines 103 and 112 guarantee it. (As the counterexample shows, the
unrestricted claim fails: after a failed attempt the identifier is in no
dedup set and a duplicate occurrence or a retry pass invokes `download`
for it again.) -/
theorem claim_C3_amended_dedup (api : Api) (appLists : List (List App))
    (n : PkgName) (hA : ∀ k, api n k = Outcome.success) :
    (crawl api appLists).downloadLog.count n ≤ 1 := by
  have hloop := listingLoop_C3Inv api n hA appLists listingInit
    ⟨by simp [listingInit], by simp [listingInit], by simp [listingInit]⟩
  obtain ⟨h1, h2, h3⟩ := hloop
  have hB := downloadRun_C3Inv api true n hA
    (listingLoop api appLists listingInit).busy
    (listingLoop api appLists listingInit).downloaded
    (listingLoop api appLists listingInit).log h1 h2
  obtain ⟨b1, b2, b3⟩ := hB
  have hrBd := downloadRun_downloaded_eq api
    (listingLoop api appLists listingInit).busy
    (listingLoop api appLists listingInit).downloaded
    (listingLoop api appLists listingInit).log true
  simp only [crawl]
  split
  next hempty =>
    have hS := downloadRun_C3Inv api false n hA
      ((listingLoop api appLists listingInit).retry
        ++ (downloadRun api (listingLoop api appLists listingInit).busy
            (listingLoop api appLists listingInit).downloaded
            (listingLoop api appLists listingInit).log true).retryList)
      ((listingLoop api appLists listingInit).downloaded
        ++ (downloadRun api (listingLoop api appLists listingInit).busy
            (listingLoop api appLists listingInit).downloaded
            (listingLoop api appLists listingInit).log true).localSuccess)
      (downloadRun api (listingLoop api appLists listingInit).busy
        (listingLoop api appLists listingInit).downloaded
        (listingLoop api appLists listingInit).log true).log b1 ?_
    · exact hS.1
    · intro hmem
      rcases b2 hmem with hd | hs
      · exact List.mem_append.mpr (Or.inl (hrBd ▸ hd))
      · exact List.mem_append.mpr (Or.inr hs)
  next hempty =>
    have hC := downloadRun_C3Inv api true n hA
      (downloadRun api (listingLoop api appLists listingInit).busy
        (listingLoop api appLists listingInit).downloaded
        (listingLoop api appLists listingInit).log true).busyList
      ((listingLoop api appLists listingInit).downloaded
        ++ (downloadRun api (listingLoop api appLists listingInit).busy
            (listingLoop api appLists listingInit).downloaded
            (listingLoop api appLists listingInit).log true).localSuccess)
      (downloadRun api (listingLoop api appLists listingInit).busy
        (listingLoop api appLists listingInit).downloaded
        (listingLoop api appLists listingInit).log true).log b1 ?_
    · obtain ⟨c1, c2, c3⟩ := hC
      have hrCd := downloadRun_downloaded_eq api
        (downloadRun api (listingLoop api appLists listingInit).busy
          (listingLoop api appLists listingInit).downloaded
          (listingLoop api appLists listingInit).log true).busyList
        ((listingLoop api appLists listingInit).downloaded
          ++ (downloadRun api (listingLoop api appLists listingInit).busy
              (listingLoop api appLists listingInit).downloaded
              (listingLoop api appLists listingInit).log true).localSuccess)
        (downloadRun api (listingLoop api appLists listingInit).busy
          (listingLoop api appLists listingInit).downloaded
          (listingLoop api appLists listingInit).log true).log true
      have hS := downloadRun_C3Inv api false n hA
        ((listingLoop api appLists listingInit).retry
          ++ (downloadRun api
              (downloadRun api (listingLoop api appLists listingInit).busy
                (listingLoop api appLists listingInit).downloaded
                (listingLoop api appLists listingInit).log true).busyList
              ((listingLoop api appLists listingInit).downloaded
                ++ (downloadRun api (listingLoop api appLists listingInit).busy
                    (listingLoop api appLists listingInit).downloaded
                    (listingLoop api appLists listingInit).log true).localSuccess)
              (downloadRun api (listingLoop api appLists listingInit).busy
                (listingLoop api appLists listingInit).downloaded
                (listingLoop api appLists listingInit).log true).log
              true).retryList)
        ((listingLoop api appLists listingInit).downloaded
          ++ (downloadRun api (listingLoop api appLists listingInit).busy
              (listingLoop api appLists listingInit).downloaded
              (listingLoop api appLists listingInit).log true).localSuccess)
        (downloadRun api
          (downloadRun api (listingLoop api appLists listingInit).busy
            (listingLoop api appLists listingInit).downloaded
            (listingLoop api appLists listingInit).log true).busyList
          ((listingLoop api appLists listingInit).downloaded
            ++ (downloadRun api (listingLoop api appLists listingInit).busy
                (listingLoop api appLists listingInit).downloaded
                (listingLoop api appLists listingInit).log true).localSuccess)
          (downloadRun api (listingLoop api appLists listingInit).busy
            (listingLoop api appLists listingInit).downloaded
            (listingLoop api appLists listingInit).log true).log
          true).log c1 ?_
      · exact hS.1
      · intro hmem
        rcases c2 hmem with hd | hs
        · exact hrCd ▸ hd
        · obtain ⟨a, hain, haname⟩ := mem_localSuccess_of_run hs
          exact absurd haname (b3 a hain)
    · intro hmem
      rcases b2 hmem with hd | hs
      · exact List.mem_append.mpr (Or.inl (hrBd ▸ hd))
      · exact List.mem_append.mpr (Or.inr hs)

/-- Oracle whose downloads always succeed. -/
def apiSuccess : Api := fun _ _ => Outcome.success

/-- Witness for the amended C3: identifier `e` is referenced by two
listings, all its downloads succeed, and it is downloaded at most once. -/
theorem claim_C3_amended_witness :
    (∀ k, apiSuccess eN k = Outcome.success) ∧
    (crawl apiSuccess [[eApp1], [eApp2]]).downloadLog.count eN ≤ 1 :=
  ⟨fun _ => rfl,
   claim_C3_amended_dedup apiSuccess [[eApp1], [eApp2]] eN (fun _ => rfl)⟩

/-- C7: the long cooldown (sixty sleeps of 60 time-units, lines 116-120)
happens exactly when the busy-backlog pass left a non-empty busy list; the
driver then runs exactly once more over that busy list with retries enabled
(line 122); and — when all discovered entry objects are distinct — an entry
still busy after that second attempt is never passed to the driver again and
never appears in the run-wide retry backlog handed to the final sweep. -/
theorem claim_C7_cooldown_escalation (api : Api) (appLists : List (List App))
    (hnd : appLists.flatten.Nodup) :
    ((crawl api appLists).cooldownPass = none
      ↔ (crawl api appLists).busyPass.busyList = []) ∧
    ((crawl api appLists).cooldownSleeps
      = (match (crawl api appLists).cooldownPass with
         | none => []
         | some _ => List.replicate 60 60)) ∧
    (∀ rC, (crawl api appLists).cooldownPass = some rC →
      rC = downloadRun api (crawl api appLists).busyPass.busyList
            (crawl api appLists).downloadedAfterBusy
            (crawl api appLists).busyPass.log true ∧
      ∀ x, x ∈ rC.busyList →
        x ∉ (crawl api appLists).finalRetry ∧
        ∀ e, e ∈ (crawl api appLists).finalSweep.trace → eventApp e ≠ x) := by
  refine ⟨crawl_cooldownPass_none_iff api appLists,
    crawl_cooldownSleeps_eq api appLists, ?_⟩
  intro rC hrC
  have hne : (crawl api appLists).busyPass.busyList ≠ [] := by
    intro h0
    rw [(crawl_cooldownPass_none_iff api appLists).mpr h0] at hrC
    exact Option.noConfusion hrC
  have hval := crawl_cooldownPass_eq api appLists hne
  rw [hval] at hrC
  have hrCeq : rC = downloadRun api (crawl api appLists).busyPass.busyList
      (crawl api appLists).downloadedAfterBusy
      (crawl api appLists).busyPass.log true := (Option.some.inj hrC).symm
  refine ⟨hrCeq, ?_⟩
  intro x hx
  have hbp := crawl_busyPass_eq api appLists
  have hxB : x ∈ (crawl api appLists).busyPass.busyList := by
    rw [hrCeq] at hx
    exact mem_busyList_of_run hx
  have hj : appLists.flatten.count x ≤ 1 :=
    List.nodup_iff_count_le_one.mp hnd x
  have hloop := listingLoop_count_le api appLists listingInit x
  have hloop' : (listingLoop api appLists listingInit).busy.count x
      + (listingLoop api appLists listingInit).retry.count x
        ≤ appLists.flatten.count x := by
    simpa [listingInit] using hloop
  have hrB := run_count_le api (listingLoop api appLists listingInit).busy
    (listingLoop api appLists listingInit).downloaded
    (listingLoop api appLists listingInit).log true x
  have hrC_cnt := run_count_le api (crawl api appLists).busyPass.busyList
    (crawl api appLists).downloadedAfterBusy
    (crawl api appLists).busyPass.log true x
  rw [← hrCeq] at hrC_cnt
  rw [hbp] at hrC_cnt
  have hxB1 : 0 < (crawl api appLists).busyPass.busyList.count x :=
    List.count_pos_iff.mpr hxB
  rw [hbp] at hxB1
  have hx1 : 0 < rC.busyList.count x := List.count_pos_iff.mpr hx
  have hR0 : (listingLoop api appLists listingInit).retry.count x = 0 := by
    omega
  have hrC0 : rC.retryList.count x = 0 := by omega
  have hxnotst : x ∉ (listingLoop api appLists listingInit).retry :=
    List.count_eq_zero.mp hR0
  have hxnotrC : x ∉ rC.retryList := List.count_eq_zero.mp hrC0
  have hfr := crawl_finalRetry_eq api appLists
  rw [crawl_retryAfterListings_eq] at hfr
  simp only [hval] at hfr
  rw [← hrCeq] at hfr
  have hxnotF : x ∉ (crawl api appLists).finalRetry := by
    rw [hfr]
    intro hmem
    rcases List.mem_append.mp hmem with hmem | hmem
    · exact hxnotst hmem
    · exact hxnotrC hmem
  refine ⟨hxnotF, ?_⟩
  intro e he
  have hfs := crawl_finalSweep_eq api appLists
  simp only [hval] at hfs
  rw [hfs] at he
  have hmemF := mem_trace_of_run he
  intro hex
  rw [hex] at hmemF
  exact hxnotF hmemF

/-- Witness for C7: with `p` permanently busy, the single-listing run
triggers the cooldown and `p` stays busy after the second attempt. -/
theorem claim_C7_witness :
    ([[pApp]] : List (List App)).flatten.Nodup ∧
    (((crawl apiBusy [[pApp]]).cooldownPass = none
        ↔ (crawl apiBusy [[pApp]]).busyPass.busyList = []) ∧
     ((crawl apiBusy [[pApp]]).cooldownSleeps
        = (match (crawl apiBusy [[pApp]]).cooldownPass with
           | none => []
           | some _ => List.replicate 60 60)) ∧
     (∀ rC, (crawl apiBusy [[pApp]]).cooldownPass = some rC →
       rC = downloadRun apiBusy (crawl apiBusy [[pApp]]).busyPass.busyList
             (crawl apiBusy [[pApp]]).downloadedAfterBusy
             (crawl apiBusy [[pApp]]).busyPass.log true ∧
       ∀ x, x ∈ rC.busyList →
         x ∉ (crawl apiBusy [[pApp]]).finalRetry ∧
         ∀ e, e ∈ (crawl apiBusy [[pApp]]).finalSweep.trace
           → eventApp e ≠ x)) :=
  ⟨by decide, claim_C7_cooldown_escalation apiBusy [[pApp]] (by decide)⟩
